import Mathlib

/-!
Shallow embedding of the nanobot orchestration core
(`src/nanobot/bus/events.py`, `src/nanobot/bus/queue.py`,
`src/nanobot/agent/loop.py`, `src/nanobot/agent/subagent.py`,
`src/nanobot/agent/tools/spawn.py`,
`src/nanobot/providers/litellm_provider.py`), together with theorems
settling the specification's claims about the message bus, the bounded
tool-calling loop, the subagent manager and the LLM provider wrapper.

External effects (the model backend, tool side effects, the entropy
source behind `uuid.uuid4`) are modelled as explicit oracle parameters,
so every definition is an executable Lean function mirroring the Python
control flow.
-/

namespace Nanobot

/-- A structured tool-call request returned by the model.
Modelled from the spec: `nanobot/providers/base.py` (class
`ToolCallRequest`) is not under `src/`; §3/§6 of the spec give the fields
`id`, `name` and a structured key-value `arguments` map. -/
structure ToolCallRequest where
  id : String
  name : String
  arguments : List (String × String)
deriving Repr, DecidableEq

/-- A model response.
Modelled from the spec: `nanobot/providers/base.py` (class `LLMResponse`)
is not under `src/`; §6 of the spec gives `content: text|absent`, an
ordered tool-call list and `has_tool_calls`, and
`litellm_provider.py` shows the fields `content`, `tool_calls`
(default empty), `finish_reason` (default `"stop"`). -/
structure LLMResponse where
  content : Option String := none
  toolCalls : List ToolCallRequest := []
  finishReason : String := "stop"
deriving Repr, DecidableEq

/-- `has_tool_calls`: the response carries at least one tool call. -/
def LLMResponse.hasToolCalls (r : LLMResponse) : Bool :=
  !r.toolCalls.isEmpty

/-- `InboundMessage` from `src/nanobot/bus/events.py` (timestamp and the
opaque `metadata` map are omitted: no modelled operation reads them). -/
structure InboundMessage where
  channel : String
  senderId : String
  chatId : String
  content : String
  media : List String := []
deriving Repr, DecidableEq

/-- `InboundMessage.session_key` from `src/nanobot/bus/events.py`. -/
def InboundMessage.sessionKey (m : InboundMessage) : String :=
  m.channel ++ ":" ++ m.chatId

/-- `OutboundMessage` from `src/nanobot/bus/events.py` (timestamp-free;
the opaque `metadata` map is omitted). -/
structure OutboundMessage where
  channel : String
  chatId : String
  content : String
  replyTo : Option String := none
  media : List String := []
deriving Repr, DecidableEq

/-- A conversation session: ordered role-tagged history.
Modelled from the spec: `nanobot/session/manager.py` is not under
`src/`; §3/§6 give `get_history()` and `add_message(role, content)`
appending to an ordered sequence. -/
structure Session where
  key : String
  history : List (String × String) := []
deriving Repr, DecidableEq

/-- `session.add_message(role, content)`: append one entry. -/
def Session.addMessage (s : Session) (role content : String) : Session :=
  { s with history := s.history ++ [(role, content)] }

/-- The session store backing `SessionManager`.
Modelled from the spec: `nanobot/session/manager.py` is not under
`src/`; §6 gives `get_or_create(session_key) -> session`. -/
abbrev SessionStore : Type := List (String × Session)

/-- `sessions.get_or_create(key)`: existing session or a fresh empty one. -/
def getOrCreate (store : SessionStore) (key : String) : Session :=
  match store.find? (fun p => p.1 == key) with
  | some p => p.2
  | none => { key := key, history := [] }

/-- One entry of the model-input message sequence.
Modelled from the spec: `nanobot/agent/context.py` (class
`ContextBuilder`) is not under `src/`; §6 gives `build_messages`,
`add_assistant_message` (content plus structured tool-call records) and
`add_tool_result` (keyed by tool-call id and name). -/
inductive ChatMsg where
  | system (content : String)
  | user (content : String)
  | assistant (content : Option String) (toolCalls : List ToolCallRequest)
  | tool (toolCallId : String) (name : String) (content : String)
deriving Repr, DecidableEq

/-- `context.build_messages(history, current_message, media)`.
Modelled from the spec: `nanobot/agent/context.py` is not under `src/`;
the sequence is session history followed by the current content. -/
def buildMessages (history : List (String × String)) (current : String)
    (_media : Option (List String)) : List ChatMsg :=
  history.map (fun p => if p.1 == "assistant" then ChatMsg.assistant (some p.2) []
                        else ChatMsg.user p.2)
    ++ [ChatMsg.user current]

/-- `context.add_assistant_message(messages, content, tool_calls)`.
Modelled from the spec: appends one assistant turn carrying the
structured tool-call records. -/
def addAssistantMessage (msgs : List ChatMsg) (content : Option String)
    (toolCalls : List ToolCallRequest) : List ChatMsg :=
  msgs ++ [ChatMsg.assistant content toolCalls]

/-- `context.add_tool_result(messages, tool_call_id, tool_name, result)`.
Modelled from the spec: appends one tool-result entry keyed by id. -/
def addToolResult (msgs : List ChatMsg) (toolCallId name result : String) :
    List ChatMsg :=
  msgs ++ [ChatMsg.tool toolCallId name result]

/-- A registered tool: a declared name and its textual executor.
Modelled from the spec: the tool base class and
`nanobot/agent/tools/registry.py` are not under `src/`; §4.4/§6 give
`name` and `execute(**arguments) -> text`. -/
structure Tool where
  name : String
  run : List (String × String) → String

/-- A tool registry is the ordered list of registrations.
Modelled from the spec: `nanobot/agent/tools/registry.py` is not under
`src/`; §4.4 gives `register` keyed by the declared name with the last
registration for a name winning. -/
abbrev ToolRegistry : Type := List Tool

/-- The freshly constructed empty registry (`ToolRegistry()`). -/
def ToolRegistry.empty : ToolRegistry := []

/-- `registry.register(tool)`: record the registration. -/
def ToolRegistry.register (reg : ToolRegistry) (t : Tool) : ToolRegistry :=
  reg ++ [t]

/-- The declared names present in a registry. -/
def ToolRegistry.names (reg : ToolRegistry) : List String :=
  reg.map (fun t => t.name)

/-- `registry.get(name)`: last registration for `name` wins (§4.4). -/
def ToolRegistry.getTool (reg : ToolRegistry) (name : String) : Option Tool :=
  reg.reverse.find? (fun t => t.name == name)

/-- `registry.execute(name, arguments)`.
Modelled from the spec: §4.4 — an unknown tool name or a tool-level
failure surfaces as a textual error result rather than an exception, so
the modelled executor is total. -/
def ToolRegistry.executeTool (reg : ToolRegistry) (name : String)
    (args : List (String × String)) : String :=
  match reg.getTool name with
  | some t => t.run args
  | none => "Error: unknown tool " ++ name

/-- One tool-call iteration body from `loop.py` lines 222-247: append the
assistant turn with its tool-call records, then execute every tool call
sequentially in model order, appending each result. -/
def applyToolCalls (reg : ToolRegistry) (msgs : List ChatMsg)
    (r : LLMResponse) : List ChatMsg :=
  let withAssistant := addAssistantMessage msgs r.content r.toolCalls
  r.toolCalls.foldl
    (fun ms tc =>
      addToolResult ms tc.id tc.name (reg.executeTool tc.name tc.arguments))
    withAssistant

/-- The bounded tool-calling loop of `loop.py` lines 208-251 (and
322-350): `chat` is the model oracle (response as a function of the
message sequence), `fuel` the remaining iterations, `calls` the model
calls made so far.  Returns the total number of model calls and the
final content (`none` on bound exhaustion or an absent final content). -/
def agentIter (chat : List ChatMsg → LLMResponse) (reg : ToolRegistry) :
    Nat → List ChatMsg → Nat → Nat × Option String
  | 0, _, calls => (calls, none)
  | fuel + 1, msgs, calls =>
    let r := chat msgs
    if r.hasToolCalls then
      agentIter chat reg fuel (applyToolCalls reg msgs r) (calls + 1)
    else
      (calls + 1, r.content)

/-- Split a character list at the FIRST `':'`, mirroring Python's
`s.split(":", 1)` (returns `none` when no `':'` occurs, mirroring the
`":" in msg.chat_id` guard of `loop.py` line 284). -/
def splitFirstColon : List Char → Option (List Char × List Char)
  | [] => none
  | c :: rest =>
    if c = ':' then some ([], rest)
    else
      match splitFirstColon rest with
      | none => none
      | some (a, b) => some (c :: a, b)

/-- Parse a system message's `chat_id` as `"channel:chat_id"`
(`loop.py` lines 283-291): split on the first `':'`; with no separator
fall back to channel `"cli"` with the raw `chat_id`. -/
def parseSystemChatId (chatId : String) : String × String :=
  match splitFirstColon chatId.data with
  | some (a, b) => (String.mk a, String.mk b)
  | none => ("cli", chatId)

/-- The origin encoding used by `SubagentManager._announce_result`
(`subagent.py` line 245): `chat_id = f"{origin.channel}:{origin.chat_id}"`. -/
def encodeOrigin (channel chatId : String) : String :=
  channel ++ ":" ++ chatId

/-- Fallback final content of `_process_message` (`loop.py` line 254). -/
def ordinaryFallback : String := "处理完成，但没有生成响应。"

/-- Fallback final content of `_process_system_message`
(`loop.py` line 353). -/
def systemFallback : String := "后台任务已完成。"

/-- The result of processing one inbound message: the returned outbound
message (the Python signature is `OutboundMessage | None`), the session
as saved, and the number of model calls the turn made. -/
structure TurnResult where
  outbound : Option OutboundMessage
  session : Session
  modelCalls : Nat
deriving Repr, DecidableEq

/-- `AgentLoop._process_message`, ordinary (non-system) path
(`loop.py` lines 185-266): resolve the session, build the message
sequence, run the bounded loop, substitute the fallback when no final
content was produced, append the `user`/`assistant` pair, and address
the reply to the message's own channel and chat id. -/
def processOrdinary (maxIterations : Nat) (chat : List ChatMsg → LLMResponse)
    (reg : ToolRegistry) (store : SessionStore) (msg : InboundMessage) :
    TurnResult :=
  let session := getOrCreate store msg.sessionKey
  let messages := buildMessages session.history msg.content
    (if msg.media.isEmpty then none else some msg.media)
  let res := agentIter chat reg maxIterations messages 0
  let finalContent := res.2.getD ordinaryFallback
  let session := (session.addMessage "user" msg.content).addMessage
    "assistant" finalContent
  { outbound := some { channel := msg.channel, chatId := msg.chatId,
                       content := finalContent },
    session := session, modelCalls := res.1 }

/-- `AgentLoop._process_system_message` (`loop.py` lines 268-365):
recover the origin from `chat_id`, resolve the origin session, run the
same bounded loop, substitute the system fallback, persist the turn with
the `[系统: sender]` marker prefix, and address the reply to the
recovered origin. -/
def processSystemMessage (maxIterations : Nat)
    (chat : List ChatMsg → LLMResponse) (reg : ToolRegistry)
    (store : SessionStore) (msg : InboundMessage) : TurnResult :=
  let origin := parseSystemChatId msg.chatId
  let sessionKey := origin.1 ++ ":" ++ origin.2
  let session := getOrCreate store sessionKey
  let messages := buildMessages session.history msg.content none
  let res := agentIter chat reg maxIterations messages 0
  let finalContent := res.2.getD systemFallback
  let session := (session.addMessage "user"
      ("[系统: " ++ msg.senderId ++ "] " ++ msg.content)).addMessage
    "assistant" finalContent
  { outbound := some { channel := origin.1, chatId := origin.2,
                       content := finalContent },
    session := session, modelCalls := res.1 }

/-- `AgentLoop._process_message` dispatcher (`loop.py` lines 182-183):
system-channel messages go to `_process_system_message`, everything else
takes the ordinary path. -/
def processMessage (maxIterations : Nat) (chat : List ChatMsg → LLMResponse)
    (reg : ToolRegistry) (store : SessionStore) (msg : InboundMessage) :
    TurnResult :=
  if msg.channel == "system" then
    processSystemMessage maxIterations chat reg store msg
  else
    processOrdinary maxIterations chat reg store msg

/-- The channel/chat identity a successful reply to `msg` is routed to:
the recovered origin for system messages, the message's own identity
otherwise. -/
def replyRoute (msg : InboundMessage) : String × String :=
  if msg.channel == "system" then parseSystemChatId msg.chatId
  else (msg.channel, msg.chatId)

/-- The session key the turn resolves (`msg.session_key` on the ordinary
path, the re-encoded origin on the system path). -/
def resolvedSessionKey (msg : InboundMessage) : String :=
  if msg.channel == "system" then
    (parseSystemChatId msg.chatId).1 ++ ":" ++ (parseSystemChatId msg.chatId).2
  else msg.sessionKey

/-- The `user`-role text the turn persists: the marker-prefixed content
for system messages (`loop.py` line 356), the raw content otherwise
(`loop.py` line 257). -/
def persistedUserText (msg : InboundMessage) : String :=
  if msg.channel == "system" then
    "[系统: " ++ msg.senderId ++ "] " ++ msg.content
  else msg.content

/-- Error reply text of `AgentLoop.run` (`loop.py` line 152). -/
def errorReplyText (e : String) : String := "抱歉，发生了错误: " ++ e

/-- Per-message handling inside `AgentLoop.run` (`loop.py` lines
141-153): `proc` is the outcome of `_process_message` (`Except` models a
raised exception).  On success the reply, if any, is published; on an
exception exactly one error reply addressed to the message's own
channel/chat id is published. -/
def handleInbound (proc : InboundMessage → Except String (Option OutboundMessage))
    (msg : InboundMessage) : List OutboundMessage :=
  match proc msg with
  | .ok (some r) => [r]
  | .ok none => []
  | .error e =>
    [{ channel := msg.channel, chatId := msg.chatId,
       content := errorReplyText e }]

/-- The standing consumer loop of `AgentLoop.run` (`loop.py` lines
133-155) over a finite inbound trace: every message is handled, a
failure on one message never stops consumption of the rest. -/
def runLoop (proc : InboundMessage → Except String (Option OutboundMessage)) :
    List InboundMessage → List OutboundMessage
  | [] => []
  | m :: rest => handleInbound proc m ++ runLoop proc rest

/-- Status wording of `_announce_result` (`subagent.py` line 229). -/
def announceStatusText (status : String) : String :=
  if status == "ok" then "成功完成" else "失败"

/-- Announcement body built by `SubagentManager._announce_result`
(`subagent.py` lines 232-239). -/
def announceContent (label task result status : String) : String :=
  "[子代理 '" ++ label ++ "' " ++ announceStatusText status ++ "]\n\n任务: "
    ++ task ++ "\n\n结果:\n" ++ result
    ++ "\n\n请用自然语言向用户总结这个结果。保持简洁（1-2句话），不要提及\"子代理\"或任务ID等技术细节。"

/-- `SubagentManager._announce_result` (`subagent.py` lines 207-250):
the announcement is published as a NEW INBOUND message on channel
`"system"`, sender `"subagent"`, with `chat_id` carrying the encoded
origin. -/
def announceResult (label task result : String) (origin : String × String)
    (status : String) : InboundMessage :=
  { channel := "system", senderId := "subagent",
    chatId := encodeOrigin origin.1 origin.2,
    content := announceContent label task result status }

/-- The fixed iteration bound of the subagent loop
(`subagent.py` line 150). -/
def subagentMaxIterations : Nat := 15

/-- Fallback final result of a subagent run (`subagent.py` line 197). -/
def subagentFallback : String := "任务已完成，但未生成最终响应。"

/-- Tool registered by the subagent's fresh registry.
Modelled from the spec: `nanobot/agent/tools/filesystem.py` is not under
`src/`; the declared name of `ReadFileTool` is modelled as
`"read_file"`. Tool behaviour is an excluded collaborator (§1), so the
executor is left trivial. -/
def readFileTool : Tool := { name := "read_file", run := fun _ => "" }

/-- Modelled from the spec: `nanobot/agent/tools/filesystem.py` is not
under `src/`; the declared name of `WriteFileTool` is modelled as
`"write_file"`. -/
def writeFileTool : Tool := { name := "write_file", run := fun _ => "" }

/-- Modelled from the spec: `nanobot/agent/tools/filesystem.py` is not
under `src/`; the declared name of `ListDirTool` is modelled as
`"list_dir"`. -/
def listDirTool : Tool := { name := "list_dir", run := fun _ => "" }

/-- Modelled from the spec: `nanobot/agent/tools/shell.py` is not under
`src/`; the declared name of `ExecTool` is modelled as `"exec"`. -/
def execTool : Tool := { name := "exec", run := fun _ => "" }

/-- Modelled from the spec: `nanobot/agent/tools/web.py` is not under
`src/`; the declared name of `WebSearchTool` is modelled as
`"web_search"`. -/
def webSearchTool : Tool := { name := "web_search", run := fun _ => "" }

/-- Modelled from the spec: `nanobot/agent/tools/web.py` is not under
`src/`; the declared name of `WebFetchTool` is modelled as
`"web_fetch"`. -/
def webFetchTool : Tool := { name := "web_fetch", run := fun _ => "" }

/-- The registrations `_run_subagent` performs on its fresh registry, in
source order (`subagent.py` lines 134-140).  The messaging and spawn
tools are simply never in this list. -/
def subagentRegistrations : List Tool :=
  [readFileTool, writeFileTool, listDirTool, execTool, webSearchTool,
   webFetchTool]

/-- The subagent's tool registry: the fresh registry after the six
`register` calls of `subagent.py` lines 134-140. -/
def subagentRegistry : ToolRegistry :=
  subagentRegistrations.foldl ToolRegistry.register ToolRegistry.empty

/-- The seed message sequence of a subagent run
(`subagent.py` lines 143-147): the task-specific system directive plus
the task as the user message (`_build_subagent_prompt` is a pure string
template; only its dependence on the task matters here). -/
def subagentInitMessages (systemPrompt task : String) : List ChatMsg :=
  [ChatMsg.system systemPrompt, ChatMsg.user task]

/-- The subagent's tool-calling loop (`subagent.py` lines 150-194), with
a model oracle that may raise (`Except.error` models an exception
escaping `provider.chat`).  Returns the number of model calls made and
either the final content or the escaped exception. -/
def subagentLoop (chat : List ChatMsg → Except String LLMResponse)
    (reg : ToolRegistry) :
    Nat → List ChatMsg → Nat → Nat × Except String (Option String)
  | 0, _, calls => (calls, .ok none)
  | fuel + 1, msgs, calls =>
    match chat msgs with
    | .error e => (calls + 1, .error e)
    | .ok r =>
      if r.hasToolCalls then
        subagentLoop chat reg fuel (applyToolCalls reg msgs r) (calls + 1)
      else
        (calls + 1, .ok r.content)

/-- `SubagentManager._run_subagent` (`subagent.py` lines 108-205): the
whole body runs under `try/except`; a normal finish announces with
status `"ok"` (with the fallback when no final content was produced), an
exception anywhere inside announces with status `"error"` and the error
text.  The function is total: no exception leaves the task.  Returns the
status passed to `_announce_result`, the announcement, and the number of
model calls made. -/
def runSubagent (chat : List ChatMsg → Except String LLMResponse)
    (systemPrompt task label : String) (origin : String × String) :
    String × InboundMessage × Nat :=
  let res := subagentLoop chat subagentRegistry subagentMaxIterations
    (subagentInitMessages systemPrompt task) 0
  match res.2 with
  | .ok finalResult =>
    ("ok",
     announceResult label task (finalResult.getD subagentFallback) origin "ok",
     res.1)
  | .error e =>
    ("error", announceResult label task ("错误: " ++ e) origin "error", res.1)

/-- `spawn`'s task-id allocation (`subagent.py` line 87):
`str(uuid.uuid4())[:8]`.  The uuid4 draw is the argument. -/
def spawnTaskId (uuid : String) : String :=
  String.mk (uuid.data.take 8)

/-- The task ids allocated by `k` spawns (`subagent.py` lines 87-103),
with `idStream` modelling the successive `uuid.uuid4()` draws.  `spawn`
performs no uniqueness check on the allocated id. -/
def spawnIds (idStream : Nat → String) (k : Nat) : List String :=
  (List.range k).map (fun n => spawnTaskId (idStream n))

/-- The active-task map `_running_tasks` after `k` spawns with no
completion yet: Python dict insertion `self._running_tasks[task_id] = t`
overwrites an existing key. -/
def spawnTaskMap (idStream : Nat → String) : Nat → List (String × Nat)
  | 0 => []
  | k + 1 =>
    let m := spawnTaskMap idStream k
    let id := spawnTaskId (idStream k)
    if m.any (fun p => p.1 == id) then
      m.map (fun p => if p.1 == id then (p.1, k) else p)
    else
      m ++ [(id, k)]

/-- Outbound-subscriber registry of `MessageBus`
(`queue.py` line 35): the dict from channel name to callback list,
modelled by its lookup function (`dict.get(channel, [])` semantics, the
only read the bus performs); callbacks are tracked by identity tokens. -/
abbrev Subscribers : Type := String → List Nat

/-- The registry of a freshly constructed bus: no channel has
subscribers. -/
def Subscribers.empty : Subscribers := fun _ => []

/-- `MessageBus.subscribe_outbound(channel, callback)`
(`queue.py` lines 54-68): create the channel's entry if absent, then
append the callback — on the lookup view, append to exactly that
channel's list. -/
def subscribeOutbound (subs : Subscribers) (channel : String) (cb : Nat) :
    Subscribers :=
  fun ch => if ch == channel then subs ch ++ [cb] else subs ch

/-- `self._outbound_subscribers.get(msg.channel, [])`
(`queue.py` line 81). -/
def subscribersFor (subs : Subscribers) (channel : String) : List Nat :=
  subs channel

/-- Apply a sequence of `subscribe_outbound` calls in order to the
freshly constructed (empty) registry. -/
def registerAllSubs (regs : List (String × Nat)) : Subscribers :=
  regs.foldl (fun subs r => subscribeOutbound subs r.1 r.2) Subscribers.empty

/-- The `for callback in subscribers` loop of `dispatch_outbound`
(`queue.py` lines 82-86): every callback is invoked in order; `cbRes`
is each callback's outcome and the `try/except` means a failing outcome
does not stop the loop.  The trace records each invocation with its
outcome. -/
def runCallbacks (cbRes : Nat → Except String Unit) :
    List Nat → List (Nat × Except String Unit)
  | [] => []
  | cb :: rest => (cb, cbRes cb) :: runCallbacks cbRes rest

/-- Dispatch of one outbound message (`queue.py` lines 79-86): look up
the subscribers registered for exactly the message's channel and invoke
them all. -/
def dispatchOne (subs : Subscribers) (cbRes : Nat → Except String Unit)
    (msg : OutboundMessage) : List (Nat × Except String Unit) :=
  runCallbacks cbRes (subscribersFor subs msg.channel)

/-- The standing `dispatch_outbound` loop (`queue.py` lines 70-88) over
a finite outbound trace: messages are dispatched in queue order, and a
callback failure on one message never stops the loop. -/
def dispatchAll (subs : Subscribers) (cbRes : Nat → Except String Unit) :
    List OutboundMessage → List (List (Nat × Except String Unit))
  | [] => []
  | m :: ms => dispatchOne subs cbRes m :: dispatchAll subs cbRes ms

/-- Prefix test mirroring Python's `s.startswith(pre)` (extensionally
`String.startsWith`, phrased on character lists so that it evaluates in
the kernel). -/
def strStarts (s pre : String) : Bool :=
  pre.data.isPrefixOf s.data

/-- Substring occurrence on character lists. -/
def listContainsSub (pat : List Char) : List Char → Bool
  | [] => pat.isEmpty
  | c :: rest => pat.isPrefixOf (c :: rest) || listContainsSub pat rest

/-- Substring test mirroring Python's `pat in s`. -/
def strContainsSub (s pat : String) : Bool :=
  listContainsSub pat.data s.data

/-- ASCII lowering of one character (the model names fed to `.lower()`
in `litellm_provider.py` are ASCII). -/
def charLower (c : Char) : Char :=
  if 'A' ≤ c && c ≤ 'Z' then Char.ofNat (c.toNat + 32) else c

/-- ASCII string lowering mirroring Python's `s.lower()` on the model
names it is applied to. -/
def strLower (s : String) : String :=
  String.mk (s.data.map charLower)

/-- The model-name resolution of `LiteLLMProvider.chat`
(`litellm_provider.py` lines 105-125): Python's `model or
self.default_model` treats the empty string as falsy, then the
OpenRouter / Zhipu / vLLM / Gemini prefix rules apply in order. -/
def resolveModelName (isOpenrouter isVllm : Bool) (defaultModel : String)
    (modelArg : Option String) : String :=
  let model := match modelArg with
    | none => defaultModel
    | some s => if s == "" then defaultModel else s
  let model := if isOpenrouter && !(strStarts model "openrouter/") then
      "openrouter/" ++ model
    else model
  let model :=
    if (strContainsSub (strLower model) "glm" || strContainsSub (strLower model) "zhipu")
        && !(strStarts model "zhipu/" || strStarts model "zai/"
             || strStarts model "openrouter/") then
      "zhipu/" ++ model
    else model
  let model := if isVllm then "hosted_vllm/" ++ model else model
  let model :=
    if strContainsSub (strLower model) "gemini" && !(strStarts model "gemini/") then
      "gemini/" ++ model
    else model
  model

/-- Error content built by `chat`'s `except` branch
(`litellm_provider.py` line 149). -/
def chatErrorContent (e : String) : String := "调用 LLM 失败: " ++ e

/-- `LiteLLMProvider.chat` (`litellm_provider.py` lines 84-151):
resolve the model name, then run the `try` block — `completion` maps the
resolved model name to the outcome of `acompletion` plus
`_parse_response` (`Except.error` models any raised exception there).
The `except` branch returns an `LLMResponse` describing the error with
`finish_reason = "error"` and no tool calls; the function itself is
total. -/
def liteLLMChat (isOpenrouter isVllm : Bool) (defaultModel : String)
    (modelArg : Option String)
    (completion : String → Except String LLMResponse) : LLMResponse :=
  let model := resolveModelName isOpenrouter isVllm defaultModel modelArg
  match completion model with
  | .ok r => r
  | .error e =>
    { content := some (chatErrorContent e), toolCalls := [],
      finishReason := "error" }

/-- Model oracle that always requests a tool call (witness fixture). -/
def wAllToolCallsChat : List ChatMsg → LLMResponse :=
  fun _ => { toolCalls := [{ id := "1", name := "t", arguments := [] }] }

/-- Inbound message fixture for witnesses. -/
def wMsg : InboundMessage :=
  { channel := "cli", senderId := "u", chatId := "direct", content := "hi" }

/-- Inbound system-channel message fixture for the C4 counterexample. -/
def c4Msg : InboundMessage :=
  { channel := "system", senderId := "subagent", chatId := "tg:123",
    content := "announcement" }

/-- The declared name of the messaging tool (`loop.py` line 191 looks it
up as `self.tools.get("message")`). -/
def messageToolName : String := "message"

/-- The declared name of the spawn tool
(`src/nanobot/agent/tools/spawn.py` line 50). -/
def spawnToolName : String := "spawn"

/-- Entropy stream for the C9 counterexample: two DISTINCT uuid4 draws
whose first 8 characters coincide. -/
def c9Stream : Nat → String := fun n =>
  if n == 0 then "aaaaaaaa-0000-4000-8000-000000000000"
  else "aaaaaaaa-1111-4111-8111-111111111111"

/-- Entropy stream for the C9 witness: distinct 8-character prefixes. -/
def c9GoodStream : Nat → String := fun n =>
  if n == 0 then "aaaaaaaa-0000-4000-8000-000000000000"
  else "bbbbbbbb-1111-4111-8111-111111111111"

/-! ### Helper lemmas -/

/-- The tool-calling loop makes at most `fuel` further model calls. -/
theorem agentIter_fst_le (chat : List ChatMsg → LLMResponse)
    (reg : ToolRegistry) :
    ∀ (fuel : Nat) (msgs : List ChatMsg) (calls : Nat),
      (agentIter chat reg fuel msgs calls).1 ≤ calls + fuel := by
  intro fuel
  induction fuel with
  | zero => intro msgs calls; simp [agentIter]
  | succ n ih =>
    intro msgs calls
    unfold agentIter
    cases h : (chat msgs).hasToolCalls with
    | true =>
      simp only [h, if_true]
      have := ih (applyToolCalls reg msgs (chat msgs)) (calls + 1)
      omega
    | false =>
      simp [h]

/-- When the model always returns tool calls, the loop exhausts its fuel
with no final content. -/
theorem agentIter_all_toolcalls (chat : List ChatMsg → LLMResponse)
    (reg : ToolRegistry) (h : ∀ ms, (chat ms).hasToolCalls = true) :
    ∀ (fuel : Nat) (msgs : List ChatMsg) (calls : Nat),
      agentIter chat reg fuel msgs calls = (calls + fuel, none) := by
  intro fuel
  induction fuel with
  | zero => intro msgs calls; simp [agentIter]
  | succ n ih =>
    intro msgs calls
    unfold agentIter
    simp only [h msgs, if_true]
    rw [ih, Prod.mk.injEq]
    exact ⟨by omega, rfl⟩

/-- The subagent loop makes at most `fuel` further model calls, whether
or not the model oracle raises. -/
theorem subagentLoop_fst_le (chat : List ChatMsg → Except String LLMResponse)
    (reg : ToolRegistry) :
    ∀ (fuel : Nat) (msgs : List ChatMsg) (calls : Nat),
      (subagentLoop chat reg fuel msgs calls).1 ≤ calls + fuel := by
  intro fuel
  induction fuel with
  | zero => intro msgs calls; simp [subagentLoop]
  | succ n ih =>
    intro msgs calls
    unfold subagentLoop
    match hc : chat msgs with
    | .error e => simp only []; omega
    | .ok r =>
      simp only []
      cases h : r.hasToolCalls with
      | true =>
        simp only [h, if_true]
        have := ih (applyToolCalls reg msgs r) (calls + 1)
        omega
      | false =>
        simp [h]

/-- Splitting at the first colon undoes appending `':' :: b` to a
colon-free prefix. -/
theorem splitFirstColon_append :
    ∀ (a b : List Char), ':' ∉ a →
      splitFirstColon (a ++ ':' :: b) = some (a, b) := by
  intro a
  induction a with
  | nil => intro b _; simp [splitFirstColon]
  | cons c cs ih =>
    intro b h
    have hc : ¬ c = ':' := fun hc => h (hc ▸ List.mem_cons_self c cs)
    have hcs : ':' ∉ cs := fun hm => h (List.mem_cons_of_mem c hm)
    simp [splitFirstColon, hc, ih b hcs]

/-- Registering a list of tools into a registry appends exactly their
declared names. -/
theorem names_foldl_register :
    ∀ (l : List Tool) (reg : ToolRegistry),
      (l.foldl ToolRegistry.register reg).names
        = reg.names ++ l.map (fun t => t.name) := by
  intro l
  induction l with
  | nil => intro reg; simp
  | cons t ts ih =>
    intro reg
    simp only [List.foldl_cons, ih, List.map_cons]
    simp [ToolRegistry.register, ToolRegistry.names]

/-- The callback loop of `dispatch_outbound` invokes every subscriber,
in order, whatever the callbacks' outcomes are. -/
theorem runCallbacks_map_fst (cbRes : Nat → Except String Unit) :
    ∀ (l : List Nat), (runCallbacks cbRes l).map Prod.fst = l := by
  intro l
  induction l with
  | nil => rfl
  | cons cb rest ih => simp [runCallbacks, ih]

/-- Each invoked callback's recorded outcome is the callback's own
outcome. -/
theorem runCallbacks_mem (cbRes : Nat → Except String Unit) :
    ∀ (l : List Nat) (cb : Nat), cb ∈ l →
      (cb, cbRes cb) ∈ runCallbacks cbRes l := by
  intro l
  induction l with
  | nil => intro cb h; cases h
  | cons x rest ih =>
    intro cb h
    cases h with
    | head => exact List.mem_cons_self _ _
    | tail _ hm => exact List.mem_cons_of_mem _ (ih cb hm)

/-- Effect of the whole registration sequence on one channel's lookup. -/
theorem registerAllSubs_foldl :
    ∀ (regs : List (String × Nat)) (subs : Subscribers) (ch : String),
      (regs.foldl (fun s r => subscribeOutbound s r.1 r.2) subs) ch
        = subs ch ++ (regs.filter (fun r => r.1 == ch)).map Prod.snd := by
  intro regs
  induction regs with
  | nil => intro subs ch; simp
  | cons r rs ih =>
    intro subs ch
    simp only [List.foldl_cons, ih, List.filter_cons]
    by_cases h : r.1 = ch
    · subst h
      simp [subscribeOutbound]
    · have hb : (r.1 == ch) = false := by
        rw [beq_eq_false_iff_ne]; exact h
      have hb2 : (ch == r.1) = false := by
        rw [beq_eq_false_iff_ne]; exact Ne.symm h
      simp [subscribeOutbound, hb, hb2]

/-! ### Claim theorems -/

/-- C1: for every inbound message and every model oracle, the
tool-calling loop of `_process_message` / `_process_system_message`
makes at most `max_iterations` model calls and terminates with exactly
one outbound message; and when every model response carries tool calls,
the outbound content is the configured fallback text, addressed to the
reply route. -/
theorem c1_loop_bounded_single_outbound (maxIterations : Nat)
    (chat : List ChatMsg → LLMResponse) (reg : ToolRegistry)
    (store : SessionStore) (msg : InboundMessage) :
    (processMessage maxIterations chat reg store msg).modelCalls
        ≤ maxIterations ∧
    (processMessage maxIterations chat reg store msg).outbound.isSome
        = true ∧
    ((∀ ms, (chat ms).hasToolCalls = true) →
      (processMessage maxIterations chat reg store msg).outbound
        = some { channel := (replyRoute msg).1, chatId := (replyRoute msg).2,
                 content := if msg.channel == "system" then systemFallback
                            else ordinaryFallback }) := by
  cases hc : msg.channel == "system" with
  | true =>
    refine ⟨?_, ?_, ?_⟩
    · simp only [processMessage, hc, if_true, processSystemMessage]
      simpa using agentIter_fst_le chat reg maxIterations _ 0
    · simp [processMessage, hc, processSystemMessage]
    · intro h
      simp only [processMessage, hc, if_true, processSystemMessage,
        replyRoute]
      rw [agentIter_all_toolcalls chat reg h]
      simp
  | false =>
    refine ⟨?_, ?_, ?_⟩
    · simp only [processMessage, hc, Bool.false_eq_true, if_false,
        processOrdinary]
      simpa using agentIter_fst_le chat reg maxIterations _ 0
    · simp [processMessage, hc, processOrdinary]
    · intro h
      simp only [processMessage, hc, Bool.false_eq_true, if_false,
        processOrdinary, replyRoute]
      rw [agentIter_all_toolcalls chat reg h]
      simp

/-- Witness for C1: a model that always returns tool calls under bound 2
yields the ordinary fallback reply, with 2 model calls. -/
theorem c1_loop_bounded_single_outbound_witness :
    (processMessage 2 wAllToolCallsChat [] [] wMsg).outbound
      = some { channel := (replyRoute wMsg).1, chatId := (replyRoute wMsg).2,
               content := if wMsg.channel == "system" then systemFallback
                          else ordinaryFallback } :=
  (c1_loop_bounded_single_outbound 2 wAllToolCallsChat [] [] wMsg).2.2
    (fun _ => rfl)

/-- C2: every completed turn appends exactly two entries to the resolved
session — first a `user` entry carrying the (possibly marker-prefixed)
inbound content, then one `assistant` entry — however many tool-call
iterations the turn used. -/
theorem c2_turn_appends_user_then_assistant (maxIterations : Nat)
    (chat : List ChatMsg → LLMResponse) (reg : ToolRegistry)
    (store : SessionStore) (msg : InboundMessage) :
    ∃ answer,
      (processMessage maxIterations chat reg store msg).session.history
        = (getOrCreate store (resolvedSessionKey msg)).history
          ++ [("user", persistedUserText msg), ("assistant", answer)] := by
  cases hc : msg.channel == "system" with
  | true =>
    refine ⟨(agentIter chat reg maxIterations
      (buildMessages (getOrCreate store (resolvedSessionKey msg)).history
        msg.content none) 0).2.getD systemFallback, ?_⟩
    simp [processMessage, hc, processSystemMessage, resolvedSessionKey,
      persistedUserText, Session.addMessage]
  | false =>
    refine ⟨(agentIter chat reg maxIterations
      (buildMessages (getOrCreate store (resolvedSessionKey msg)).history
        msg.content
        (if msg.media.isEmpty then none else some msg.media)) 0).2.getD
      ordinaryFallback, ?_⟩
    simp [processMessage, hc, processOrdinary, resolvedSessionKey,
      persistedUserText, Session.addMessage]

/-- C3 counterexample: with origin channel `"a:b"` (containing `':'`)
and origin chat id `"c"`, encoding then first-colon parsing does NOT
recover the original pair — it yields `("a", "b:c")`. -/
theorem c3_roundtrip_counterexample :
    parseSystemChatId (encodeOrigin "a:b" "c") ≠ ("a:b", "c") ∧
    parseSystemChatId (encodeOrigin "a:b" "c") = ("a", "b:c") := by
  constructor
  · decide
  · decide

/-- C3 (amended): encoding an origin as `channel ++ ":" ++ chat_id` and
parsing back by splitting on the first `':'` recovers exactly the
original pair whenever the origin CHANNEL contains no `':'`; the origin
chat id may freely contain `':'`. -/
theorem c3_roundtrip_channel_colon_free (channel chatId : String)
    (h : ':' ∉ channel.data) :
    parseSystemChatId (encodeOrigin channel chatId) = (channel, chatId) := by
  obtain ⟨cd⟩ := channel
  obtain ⟨id⟩ := chatId
  have hdata : (encodeOrigin (String.mk cd) (String.mk id)).data
      = cd ++ ':' :: id := by
    simp [encodeOrigin, String.data_append]
  simp only [parseSystemChatId, hdata,
    splitFirstColon_append cd id (by simpa using h)]

/-- Witness for C3 (amended): channel `"tg"`, chat id `"12:34"` — the
chat id's own colon survives the round trip. -/
theorem c3_roundtrip_channel_colon_free_witness :
    ':' ∉ "tg".data ∧
    parseSystemChatId (encodeOrigin "tg" "12:34") = ("tg", "12:34") :=
  ⟨by decide, c3_roundtrip_channel_colon_free "tg" "12:34" (by decide)⟩

/-- C4 counterexample: when processing a system-channel announcement
raises, `run` publishes the error reply to the message's own
channel/chat id `("system", "tg:123")`, which is NOT the channel and
chat identity the turn's reply would have been routed to
(`("tg", "123")`). -/
theorem c4_error_route_counterexample :
    (handleInbound (fun _ => .error "x") c4Msg).map
        (fun o => (o.channel, o.chatId))
      = [("system", "tg:123")] ∧
    replyRoute c4Msg = ("tg", "123") ∧
    (("system", "tg:123") : String × String) ≠ ("tg", "123") := by
  refine ⟨by decide, by decide, by decide⟩

/-- C4 (amended): an exception while processing one inbound message is
caught and converted into exactly one outbound error reply addressed to
the inbound message's OWN channel and chat id (which coincides with the
turn's reply route precisely for non-system messages), and the consumer
loop goes on to handle the remaining messages. -/
theorem c4_error_reply_and_loop_continues
    (proc : InboundMessage → Except String (Option OutboundMessage))
    (msg : InboundMessage) (e : String) (rest : List InboundMessage)
    (h : proc msg = .error e) :
    handleInbound proc msg
      = [{ channel := msg.channel, chatId := msg.chatId,
           content := errorReplyText e }] ∧
    runLoop proc (msg :: rest)
      = { channel := msg.channel, chatId := msg.chatId,
          content := errorReplyText e } :: runLoop proc rest ∧
    (msg.channel ≠ "system" → replyRoute msg = (msg.channel, msg.chatId)) := by
  refine ⟨?_, ?_, ?_⟩
  · simp [handleInbound, h]
  · simp [runLoop, handleInbound, h]
  · intro hne
    have hb : (msg.channel == "system") = false := by
      rw [beq_eq_false_iff_ne]; exact hne
    simp [replyRoute, hb]

/-- Witness for C4 (amended): a failing processor on an ordinary CLI
message yields exactly the one error reply, and the loop still handles
the rest of the trace. -/
theorem c4_error_reply_and_loop_continues_witness :
    handleInbound (fun _ => Except.error "boom") wMsg
      = [{ channel := wMsg.channel, chatId := wMsg.chatId,
           content := errorReplyText "boom" }] ∧
    runLoop (fun _ => Except.error "boom") (wMsg :: [])
      = { channel := wMsg.channel, chatId := wMsg.chatId,
          content := errorReplyText "boom" } ::
          runLoop (fun _ => Except.error "boom") [] ∧
    (wMsg.channel ≠ "system" → replyRoute wMsg = (wMsg.channel, wMsg.chatId)) :=
  c4_error_reply_and_loop_continues (fun _ => Except.error "boom") wMsg
    "boom" [] rfl

/-- C5: a spawned subagent task never lets an exception escape — the
modelled `_run_subagent` is a total function whose result is always an
announcement published inbound on the `"system"` channel; and whenever
the task body raises, the announcement carries status `"error"` and the
error text. -/
theorem c5_subagent_error_announced (chat : List ChatMsg → Except String LLMResponse)
    (systemPrompt task label : String) (origin : String × String) :
    (runSubagent chat systemPrompt task label origin).2.1.channel = "system" ∧
    (∀ e, (subagentLoop chat subagentRegistry subagentMaxIterations
            (subagentInitMessages systemPrompt task) 0).2 = .error e →
      (runSubagent chat systemPrompt task label origin).1 = "error" ∧
      (runSubagent chat systemPrompt task label origin).2.1
        = announceResult label task ("错误: " ++ e) origin "error") := by
  constructor
  · rcases hres : subagentLoop chat subagentRegistry subagentMaxIterations
      (subagentInitMessages systemPrompt task) 0 with ⟨calls, out⟩
    cases out with
    | ok r => simp [runSubagent, hres, announceResult]
    | error e => simp [runSubagent, hres, announceResult]
  · intro e h
    rcases hres : subagentLoop chat subagentRegistry subagentMaxIterations
      (subagentInitMessages systemPrompt task) 0 with ⟨calls, out⟩
    rw [hres] at h
    have h' : out = Except.error e := h
    subst h'
    exact ⟨by simp [runSubagent, hres], by simp [runSubagent, hres]⟩

/-- Witness for C5: a model oracle that raises on the first call
produces the `"error"`-status announcement. -/
theorem c5_subagent_error_announced_witness :
    (runSubagent (fun _ => Except.error "x") "p" "t" "lbl" ("tg", "42")).2.1.channel
      = "system" ∧
    (runSubagent (fun _ => Except.error "x") "p" "t" "lbl" ("tg", "42")).1
      = "error" :=
  ⟨(c5_subagent_error_announced (fun _ => Except.error "x") "p" "t" "lbl"
      ("tg", "42")).1,
   ((c5_subagent_error_announced (fun _ => Except.error "x") "p" "t" "lbl"
      ("tg", "42")).2 "x" rfl).1⟩

/-- C6: dispatching an outbound message invokes exactly the callbacks
registered (via `subscribe_outbound`) for the message's exact channel,
all of them and in registration order; and a message whose channel no
registration names produces no invocation (and, the dispatcher being
total, no error). -/
theorem c6_dispatch_exact_channel_in_order (regs : List (String × Nat))
    (cbRes : Nat → Except String Unit) (msg : OutboundMessage) :
    (dispatchOne (registerAllSubs regs) cbRes msg).map Prod.fst
      = (regs.filter (fun r => r.1 == msg.channel)).map Prod.snd ∧
    ((∀ r ∈ regs, r.1 ≠ msg.channel) →
      dispatchOne (registerAllSubs regs) cbRes msg = []) := by
  have hk : subscribersFor (registerAllSubs regs) msg.channel
      = (regs.filter (fun r => r.1 == msg.channel)).map Prod.snd := by
    unfold subscribersFor registerAllSubs
    rw [registerAllSubs_foldl]
    simp [Subscribers.empty]
  constructor
  · unfold dispatchOne
    rw [hk, runCallbacks_map_fst]
  · intro hnone
    have hfil : regs.filter (fun r => r.1 == msg.channel) = [] := by
      rw [List.filter_eq_nil_iff]
      intro r hr
      simpa using hnone r hr
    unfold dispatchOne
    rw [hk, hfil]
    rfl

/-- Witness for C6: registrations on `tg` and `wa`; a `tg` message
invokes exactly the two `tg` callbacks in order, and a `cli` message
invokes none. -/
theorem c6_dispatch_exact_channel_in_order_witness :
    (dispatchOne (registerAllSubs [("tg", 1), ("wa", 2), ("tg", 3)])
        (fun _ => Except.ok ()) { channel := "cli", chatId := "c", content := "m" })
      = [] :=
  (c6_dispatch_exact_channel_in_order [("tg", 1), ("wa", 2), ("tg", 3)]
      (fun _ => Except.ok ())
      { channel := "cli", chatId := "c", content := "m" }).2
    (by decide)

/-- C7: a failing subscriber callback is caught — it is recorded with
its error outcome, every other subscriber for the message is still
invoked (the invocation list is the full subscriber list), and the
dispatch loop still processes every subsequent outbound message. -/
theorem c7_callback_failure_isolated (subs : Subscribers)
    (cbRes : Nat → Except String Unit) (msg : OutboundMessage)
    (cb : Nat) (e : String) (h : cbRes cb = .error e) :
    (dispatchOne subs cbRes msg).map Prod.fst
      = subscribersFor subs msg.channel ∧
    (cb ∈ subscribersFor subs msg.channel →
      (cb, Except.error e) ∈ dispatchOne subs cbRes msg) ∧
    (∀ ms, dispatchAll subs cbRes (msg :: ms)
      = dispatchOne subs cbRes msg :: dispatchAll subs cbRes ms) := by
  refine ⟨runCallbacks_map_fst cbRes _, ?_, fun ms => rfl⟩
  intro hm
  have := runCallbacks_mem cbRes (subscribersFor subs msg.channel) cb hm
  rwa [h] at this

/-- Witness for C7: callback 1 fails, callback 3 on the same channel is
still invoked (the invocation list is exactly `[1, 3]`). -/
theorem c7_callback_failure_isolated_witness :
    (dispatchOne (registerAllSubs [("tg", 1), ("wa", 2), ("tg", 3)])
        (fun n => if n == 1 then Except.error "boom" else Except.ok ())
        { channel := "tg", chatId := "c", content := "m" }).map Prod.fst
      = subscribersFor (registerAllSubs [("tg", 1), ("wa", 2), ("tg", 3)]) "tg" ∧
    (1, Except.error "boom")
      ∈ dispatchOne (registerAllSubs [("tg", 1), ("wa", 2), ("tg", 3)])
          (fun n => if n == 1 then Except.error "boom" else Except.ok ())
          { channel := "tg", chatId := "c", content := "m" } :=
  ⟨(c7_callback_failure_isolated _ _ _ 1 "boom" rfl).1,
   (c7_callback_failure_isolated _
      (fun n => if n == 1 then Except.error "boom" else Except.ok ())
      { channel := "tg", chatId := "c", content := "m" } 1 "boom" rfl).2.1
     (by decide)⟩

/-- C8: at every point of its construction (after any prefix of the six
`register` calls) the subagent's fresh tool registry contains no tool
named `"message"` and none named `"spawn"`, and the subagent loop makes
at most `15` model calls. -/
theorem c8_subagent_registry_restricted_and_bounded :
    (∀ k : Nat,
      messageToolName ∉ ((subagentRegistrations.take k).foldl
          ToolRegistry.register ToolRegistry.empty).names ∧
      spawnToolName ∉ ((subagentRegistrations.take k).foldl
          ToolRegistry.register ToolRegistry.empty).names) ∧
    subagentMaxIterations = 15 ∧
    (∀ (chat : List ChatMsg → Except String LLMResponse)
        (systemPrompt task : String),
      (subagentLoop chat subagentRegistry subagentMaxIterations
        (subagentInitMessages systemPrompt task) 0).1 ≤ 15) := by
  have hnames : ∀ k : Nat,
      ((subagentRegistrations.take k).foldl ToolRegistry.register
        ToolRegistry.empty).names
      = (subagentRegistrations.take k).map (fun t => t.name) := by
    intro k
    rw [names_foldl_register]
    rfl
  refine ⟨?_, rfl, ?_⟩
  · intro k
    have hsub : (subagentRegistrations.take k).map (fun t => t.name)
        ⊆ subagentRegistrations.map (fun t => t.name) :=
      List.map_subset _ (List.take_subset k subagentRegistrations)
    have hmsg : messageToolName ∉ subagentRegistrations.map (fun t => t.name) := by
      simp [subagentRegistrations, readFileTool, writeFileTool, listDirTool,
        execTool, webSearchTool, webFetchTool, messageToolName]
    have hspawn : spawnToolName ∉ subagentRegistrations.map (fun t => t.name) := by
      simp [subagentRegistrations, readFileTool, writeFileTool, listDirTool,
        execTool, webSearchTool, webFetchTool, spawnToolName]
    rw [hnames k]
    exact ⟨fun hmem => hmsg (hsub hmem), fun hmem => hspawn (hsub hmem)⟩
  · intro chat systemPrompt task
    simpa using subagentLoop_fst_le chat subagentRegistry
      subagentMaxIterations (subagentInitMessages systemPrompt task) 0

/-- Witness for C8: the full registry's name list is free of `"message"`
and `"spawn"`, and a concrete raising oracle stays within 15 calls. -/
theorem c8_subagent_registry_restricted_and_bounded_witness :
    messageToolName ∉ ((subagentRegistrations.take 6).foldl
        ToolRegistry.register ToolRegistry.empty).names ∧
    (subagentLoop (fun _ => Except.error "x") subagentRegistry
      subagentMaxIterations (subagentInitMessages "p" "t") 0).1 ≤ 15 :=
  ⟨(c8_subagent_registry_restricted_and_bounded.1 6).1,
   c8_subagent_registry_restricted_and_bounded.2.2
     (fun _ => Except.error "x") "p" "t"⟩

/-- C9 counterexample: `spawn` truncates each uuid4 draw to 8 characters
and never checks the result against the active-task map, so two
concurrent spawns from distinct draws with a common 8-character prefix
receive EQUAL task ids — and the second insertion overwrites the first's
entry in `_running_tasks`. -/
theorem c9_task_id_collision_counterexample :
    c9Stream 0 ≠ c9Stream 1 ∧
    spawnIds c9Stream 2 = ["aaaaaaaa", "aaaaaaaa"] ∧
    ¬ (spawnIds c9Stream 2).Nodup ∧
    spawnTaskMap c9Stream 2 = [("aaaaaaaa", 1)] := by
  refine ⟨by decide, by decide, by decide, by decide⟩

/-- C9 (amended): the task ids of `k` concurrent spawns are pairwise
distinct exactly when the 8-character truncations of the underlying
uuid4 draws are pairwise distinct — the code adds no uniqueness check of
its own. -/
theorem c9_spawn_ids_distinct_iff_draws (idStream : Nat → String) (k : Nat)
    (h : ∀ i < k, ∀ j < k, i ≠ j →
      spawnTaskId (idStream i) ≠ spawnTaskId (idStream j)) :
    (spawnIds idStream k).Nodup := by
  unfold spawnIds
  refine List.Nodup.map_on ?_ (List.nodup_range k)
  intro x hx y hy hf
  by_contra hne
  exact h x (List.mem_range.mp hx) y (List.mem_range.mp hy) hne hf

/-- Witness for C9 (amended): two spawns from draws with distinct
prefixes do get distinct task ids. -/
theorem c9_spawn_ids_distinct_iff_draws_witness :
    (spawnIds c9GoodStream 2).Nodup :=
  c9_spawn_ids_distinct_iff_draws c9GoodStream 2 (by decide)

/-- C10: `LiteLLMProvider.chat` is total, and when the underlying
completion call (or response parsing) raises, it returns an
`LLMResponse` whose content is a textual description of the error, whose
`finish_reason` is `"error"` and which carries no tool calls — so at the
turn level the failure becomes an ordinary final answer that is
persisted to the session and sent outbound. -/
theorem c10_chat_error_becomes_response (isOpenrouter isVllm : Bool)
    (defaultModel : String) (modelArg : Option String)
    (completion : String → Except String LLMResponse) (e : String)
    (h : completion (resolveModelName isOpenrouter isVllm defaultModel modelArg)
      = .error e) :
    liteLLMChat isOpenrouter isVllm defaultModel modelArg completion
      = { content := some (chatErrorContent e), toolCalls := [],
          finishReason := "error" } ∧
    (liteLLMChat isOpenrouter isVllm defaultModel modelArg
      completion).hasToolCalls = false ∧
    (∀ (n : Nat) (reg : ToolRegistry) (store : SessionStore)
        (msg : InboundMessage), 0 < n →
      (processOrdinary n
          (fun _ => liteLLMChat isOpenrouter isVllm defaultModel modelArg
            completion) reg store msg).outbound
        = some { channel := msg.channel, chatId := msg.chatId,
                 content := chatErrorContent e } ∧
      (processOrdinary n
          (fun _ => liteLLMChat isOpenrouter isVllm defaultModel modelArg
            completion) reg store msg).session.history
        = (getOrCreate store msg.sessionKey).history
          ++ [("user", msg.content), ("assistant", chatErrorContent e)]) := by
  have hchat : liteLLMChat isOpenrouter isVllm defaultModel modelArg completion
      = { content := some (chatErrorContent e), toolCalls := [],
          finishReason := "error" } := by
    simp only [liteLLMChat]
    rw [h]
  refine ⟨hchat, ?_, ?_⟩
  · rw [hchat]; rfl
  · intro n reg store msg hn
    obtain ⟨m, rfl⟩ : ∃ m, n = m + 1 := ⟨n - 1, by omega⟩
    have hiter : ∀ msgs : List ChatMsg,
        agentIter (fun _ => liteLLMChat isOpenrouter isVllm defaultModel
          modelArg completion) reg (m + 1) msgs 0
        = (1, some (chatErrorContent e)) := by
      intro msgs
      unfold agentIter
      simp [hchat, LLMResponse.hasToolCalls]
    constructor
    · simp [processOrdinary, hiter]
    · simp [processOrdinary, hiter, Session.addMessage]

/-- Witness for C10: a completion call that raises `"boom"` yields the
error response, and a turn driven by it sends that text outbound. -/
theorem c10_chat_error_becomes_response_witness :
    liteLLMChat false false "m" none (fun _ => Except.error "boom")
      = { content := some (chatErrorContent "boom"), toolCalls := [],
          finishReason := "error" } ∧
    (processOrdinary 20
        (fun _ => liteLLMChat false false "m" none
          (fun _ => Except.error "boom")) [] [] wMsg).outbound
      = some { channel := wMsg.channel, chatId := wMsg.chatId,
               content := chatErrorContent "boom" } :=
  ⟨(c10_chat_error_becomes_response false false "m" none
      (fun _ => Except.error "boom") "boom" rfl).1,
   ((c10_chat_error_becomes_response false false "m" none
      (fun _ => Except.error "boom") "boom" rfl).2.2 20 [] [] wMsg
     (by decide)).1⟩

end Nanobot
